import Mathlib

set_option maxRecDepth 1000000

/-!
Shallow embedding of `app.py`, a Streamlit multi-cloud CI/CT/CD pipeline
simulator.  The core being verified is the scenario verification and
mitigation engine: `generate_assets`, `check_step_truth`, `apply_mitigation`,
the 20-stage pipeline loop, and the module-level button handlers
(`fix_btn` handling, the asset-regeneration condition, and the run loop).

Files on disk are modelled by a `Snapshot` record whose fields are `Option`
values: `none` models a file that does not exist (so that opening it raises,
which the source catches and converts into a failing verdict).  Python string
operations (`in`, `split`, `strip`, `replace`) are modelled character-list
functions with the same semantics.
-/

namespace CloudSim

/- ----------------------------------------------------------------- -/
/- Python string primitives over `List Char`                          -/
/- ----------------------------------------------------------------- -/

/-- Whitespace as stripped by Python `str.strip()` (the subset that can occur
in the artifacts: space, newline, tab, carriage return). -/
def isSpace (c : Char) : Bool :=
  c.toNat == 32 || c.toNat == 10 || c.toNat == 9 || c.toNat == 13

/-- Does `s` start with `pat`? -/
def startsWithL : List Char → List Char → Bool
  | [], _ => true
  | _ :: _, [] => false
  | a :: as, b :: bs => a == b && startsWithL as bs

/-- Python `pat in s` substring test. -/
def containsSub (pat : List Char) : List Char → Bool
  | [] => startsWithL pat []
  | c :: rest => startsWithL pat (c :: rest) || containsSub pat rest

/-- Split at the first occurrence of `pat`: returns the part strictly before
the first occurrence and the part strictly after it (`none` when `pat` does
not occur). -/
def splitFirst (pat : List Char) : List Char → Option (List Char × List Char)
  | [] => if startsWithL pat [] then some ([], []) else none
  | c :: rest =>
    if startsWithL pat (c :: rest) then some ([], (c :: rest).drop pat.length)
    else
      match splitFirst pat rest with
      | some (pre, post) => some (c :: pre, post)
      | none => none

/-- Python `s.split(pat)[1]`: the segment between the first occurrence of
`pat` and the next (non-overlapping) occurrence, or everything after the
first occurrence when it occurs only once.  Returns `[]` when `pat` does not
occur (the source only evaluates it under a `pat in s` guard). -/
def segAfter (pat s : List Char) : List Char :=
  match splitFirst pat s with
  | none => []
  | some (_, post) =>
    match splitFirst pat post with
    | none => post
    | some (mid, _) => mid

/-- Python `str.strip()`. -/
def stripList (s : List Char) : List Char :=
  ((s.dropWhile isSpace).reverse.dropWhile isSpace).reverse

/-- Python `str.replace` (all non-overlapping occurrences, left to right),
with fuel for structural recursion; `s.length` fuel always suffices because
every step consumes at least one character. -/
def replaceFuel (pat repl : List Char) : Nat → List Char → List Char
  | 0, s => s
  | _ + 1, [] => []
  | fuel + 1, c :: rest =>
    if startsWithL pat (c :: rest) && !pat.isEmpty then
      repl ++ replaceFuel pat repl fuel ((c :: rest).drop pat.length)
    else
      c :: replaceFuel pat repl fuel rest

/-- Python `s.replace(pat, repl)` for a non-empty pattern. -/
def pyReplace (s pat repl : String) : String :=
  ⟨replaceFuel pat.data repl.data s.data.length s.data⟩

/-- Python `pat in s` on strings. -/
def strHasSub (pat s : String) : Bool := containsSub pat.data s.data

/- ----------------------------------------------------------------- -/
/- Scenario catalog (the SCENARIOS dict)                              -/
/- ----------------------------------------------------------------- -/

/-- FMEA record of a scenario (`SCENARIOS[key]["fmea"]`). -/
structure Fmea where
  mode : String
  effect : String
  cause : String
  detection : String
  mitigation_hint : String
  mitigation_fix : String
deriving DecidableEq

/-- The 8 defect type tags (`SCENARIOS[key]["type"]`). -/
inductive DefectType
  | missing_dependency
  | dockerfile_syntax_defect
  | env_missing
  | null_values
  | high_latency
  | public_bucket
  | memory_leak
  | schema_drift
deriving DecidableEq

/-- The 8 keys of the SCENARIOS dict (demo project names). -/
inductive ScenarioKey
  | demo1
  | demo2
  | demo3
  | demo4
  | demo5
  | demo6
  | demo7
  | demo8
deriving DecidableEq

/-- One entry of the SCENARIOS dict. -/
structure Scenario where
  title : String
  stype : DefectType
  failure_step : Nat
  fmea : Fmea
deriving DecidableEq

/-- The SCENARIOS dict of `app.py`. -/
def SCENARIOS : ScenarioKey → Scenario
  | .demo1 =>
    { title := "Demo 1 · Linear Regression (dep missing)"
      stype := .missing_dependency
      failure_step := 3
      fmea :=
      { mode := "ImportError: numpy not installed"
        effect := "Build cannot run unit tests; pipeline blocked"
        cause := "requirements.txt lacks numpy though code imports it"
        detection := "Dependency audit at step 3"
        mitigation_hint := "Add `numpy` to requirements.txt"
        mitigation_fix := "Appended `numpy` to requirements.txt and reinstalled deps" } }
  | .demo2 =>
    { title := "Demo 2 · Image Classifier (Dockerfile syntax)"
      stype := .dockerfile_syntax_defect
      failure_step := 6
      fmea :=
      { mode := "Dockerfile invalid: `COPY.` missing space"
        effect := "Image can’t be built"
        cause := "Syntax error in Dockerfile"
        detection := "Docker build at step 6"
        mitigation_hint := "Replace `COPY.` with `COPY . /app`"
        mitigation_fix := "Fixed Dockerfile COPY directive" } }
  | .demo3 =>
    { title := "Demo 3 · NLP Sentiment (env credentials missing)"
      stype := .env_missing
      failure_step := 10
      fmea :=
      { mode := "Missing DB_USER/DB_PASS/DB_HOST in .env"
        effect := "Test environment provision fails"
        cause := "Incomplete secrets/config"
        detection := "Provision step 10"
        mitigation_hint := "Populate required keys in .env"
        mitigation_fix := "Wrote DB_USER/DB_PASS/DB_HOST to .env (placeholder values)" } }
  | .demo4 =>
    { title := "Demo 4 · Fraud Detection (nulls in data)"
      stype := .null_values
      failure_step := 12
      fmea :=
      { mode := "Smoke test fails due to NaNs"
        effect := "API /predict crashes with null input"
        cause := "Dataset contains missing values"
        detection := "Smoke tests step 12"
        mitigation_hint := "Impute/drop NaNs in CSV"
        mitigation_fix := "Filled NaNs with column means" } }
  | .demo5 =>
    { title := "Demo 5 · Recommender (high latency in profile)"
      stype := .high_latency
      failure_step := 15
      fmea :=
      { mode := "p90 latency > SLO"
        effect := "Pre-prod gate blocks release"
        cause := "Inefficient queries / insufficient resources"
        detection := "Load tests step 15"
        mitigation_hint := "Tune or scale; set p90 <= 1000ms"
        mitigation_fix := "Reduced p90 to 400ms in profile (proxy for tuning)" } }
  | .demo6 =>
    { title := "Demo 6 · Forecasting (public bucket policy)"
      stype := .public_bucket
      failure_step := 17
      fmea :=
      { mode := "S3/Bucket allows public write"
        effect := "Security approval rejects"
        cause := "Over-permissive ACL"
        detection := "Approval gate step 17"
        mitigation_hint := "Block public access"
        mitigation_fix := "Set BlockPublicAcls=True / removed public write" } }
  | .demo7 =>
    { title := "Demo 7 · Speech-to-Text (memory leak)"
      stype := .memory_leak
      failure_step := 19
      fmea :=
      { mode := "Growing list in inference loop"
        effect := "Pod OOM post-deploy"
        cause := "Objects retained across calls"
        detection := "Monitoring step 19"
        mitigation_hint := "Free buffers; avoid global accumulation"
        mitigation_fix := "Disabled leak flag; cleared buffers" } }
  | .demo8 =>
    { title := "Demo 8 · Anomaly Detection (schema drift)"
      stype := .schema_drift
      failure_step := 20
      fmea :=
      { mode := "Column `target` missing (found `label`)"
        effect := "CT retrain pipeline fails"
        cause := "Upstream ETL changed schema"
        detection := "CT step 20"
        mitigation_hint := "Map `label` → `target` before training"
        mitigation_fix := "Created `target` column from `label`" } }

/- ----------------------------------------------------------------- -/
/- Artifact model                                                     -/
/- ----------------------------------------------------------------- -/

/-- One column of a CSV file as loaded by `pd.read_csv`: either a numeric
column (dtype kind in "biufc", cells possibly NaN) or a textual column. -/
inductive ColData
  | num (vals : List (Option Rat))
  | txt (vals : List (Option String))
deriving DecidableEq

/-- A CSV file as a pandas DataFrame: named columns in order. -/
structure Table where
  cols : List (String × ColData)
deriving DecidableEq

/-- The parsed content of `endpoint_profile.json`. -/
structure EndpointProfile where
  p90_ms : Option Int
  notes : Option String
deriving DecidableEq

/-- The parsed content of `iac.yaml`. -/
structure BucketPolicy where
  bucket : Option String
  public_write : Option Bool
deriving DecidableEq

/-- The files of one scenario's assets directory.  Each field is `none` when
the file does not exist (so a read raises and is caught by the source). -/
structure Snapshot where
  appPy : Option String
  modelPy : Option String
  requirements : Option String
  dockerfile : Option String
  envFile : Option String
  provisionYaml : Option String
  dataCsv : Option Table
  endpointProfile : Option EndpointProfile
  iacYaml : Option BucketPolicy
  trainingCsv : Option Table
deriving DecidableEq

/-- A directory with no files at all. -/
def emptySnapshot : Snapshot :=
  { appPy := none, modelPy := none, requirements := none, dockerfile := none
    envFile := none, provisionYaml := none, dataCsv := none
    endpointProfile := none, iacYaml := none, trainingCsv := none }

/-- The `model.py` written for the memory-leak scenario. -/
def leakCode : String :=
  "\nbuffer = []\nLEAK_DEMO = True\ndef infer(x):\n    global buffer\n    if LEAK_DEMO:\n        buffer.append(bytes(1024*256))  # grow 256KB per call\n    return x\n"

/-- `generate_assets(base_dir, scenario_key)`: wipes the directory and writes
the scenario's defect-bearing baseline files. -/
def generate_assets (key : ScenarioKey) : Snapshot :=
  let base : Snapshot :=
    { emptySnapshot with appPy := some ("# minimal app entrypoint for " ++ (SCENARIOS key).title ++ "\ndef predict(x): \n    return x") }
  match (SCENARIOS key).stype with
  | .missing_dependency =>
    { base with
      modelPy := some "import numpy as np\n\nDEF_FLAG=1\n"
      requirements := some "pandas==2.2.2\n# numpy intentionally missing\n" }
  | .dockerfile_syntax_defect =>
    { base with
      dockerfile := some "FROM python:3.11-slim\nWORKDIR /app\nCOPY.\nRUN pip install -r requirements.txt\n"
      requirements := some "pandas==2.2.2\n" }
  | .env_missing =>
    { base with
      envFile := some "DB_USER=\n# DB_PASS missing\nDB_HOST=\n"
      provisionYaml := some "service: nlp-sentiment\nresources: test-db\n" }
  | .null_values =>
    { base with
      dataCsv := some ⟨[("amount", .num [some 100, none, some 45, none]),
                        ("merchant", .txt [some "a", some "b", some "c", some "d"])]⟩ }
  | .high_latency =>
    { base with endpointProfile := some { p90_ms := some 1400, notes := some "needs tuning" } }
  | .public_bucket =>
    { base with iacYaml := some { bucket := some "my-forecast-bucket", public_write := some true } }
  | .memory_leak =>
    { base with modelPy := some leakCode }
  | .schema_drift =>
    { base with
      trainingCsv := some ⟨[("feature1", .num [some 1, some 2, some 3]),
                            ("feature2", .num [some 0.1, some 0.2, some 0.3]),
                            ("label", .num [some 0, some 1, some 0])]⟩ }

/- ----------------------------------------------------------------- -/
/- Table operations used by the checks and mitigations                -/
/- ----------------------------------------------------------------- -/

/-- Does a column contain a missing cell? -/
def colHasNa : ColData → Bool
  | .num vals => vals.any Option.isNone
  | .txt vals => vals.any Option.isNone

/-- `df.isna().any().any()`. -/
def tableHasNa (t : Table) : Bool := t.cols.any fun c => colHasNa c.2

/-- `df.columns`. -/
def colNames (t : Table) : List String := t.cols.map Prod.fst

/-- Mean of a list of rationals. -/
def meanQ (l : List Rat) : Rat := l.sum / (l.length : Rat)

/-- `df[col].fillna(df[col].mean())` on a numeric column: when every cell is
missing the mean is itself NaN and the column is unchanged. -/
def fillnaMean (vals : List (Option Rat)) : List (Option Rat) :=
  let nn := vals.filterMap id
  if nn.isEmpty then vals else vals.map fun v => some (v.getD (meanQ nn))

/-- Forward fill carrying the last seen value. -/
def ffillAux (last : Option String) : List (Option String) → List (Option String)
  | [] => []
  | v :: rest =>
    match v with
    | some x => some x :: ffillAux (some x) rest
    | none => last :: ffillAux last rest

/-- `df[col].fillna(method="ffill").fillna(method="bfill")` on a textual
column. -/
def fillTxt (vals : List (Option String)) : List (Option String) :=
  (ffillAux none (ffillAux none vals).reverse).reverse

/-- The null-values mitigation applied to the whole DataFrame. -/
def fillnaTable (t : Table) : Table :=
  ⟨t.cols.map fun col =>
    (col.1,
      match col.2 with
      | .num vals => .num (fillnaMean vals)
      | .txt vals => .txt (fillTxt vals))⟩

/-- `df[name]` as an optional column. -/
def getCol (t : Table) (name : String) : Option ColData :=
  (t.cols.find? fun c => c.1 == name).map Prod.snd

/-- Number of rows of a DataFrame (length of its first column). -/
def nrows (t : Table) : Nat :=
  match t.cols with
  | [] => 0
  | c :: _ =>
    match c.2 with
    | .num vals => vals.length
    | .txt vals => vals.length

/-- The schema-drift mitigation on the training DataFrame. -/
def mitigateSchema (t : Table) : Table :=
  if (colNames t).contains "label" && !(colNames t).contains "target" then
    match getCol t "label" with
    | some cd => ⟨t.cols ++ [("target", cd)]⟩
    | none => t
  else if !(colNames t).contains "target" then
    ⟨t.cols ++ [("target", .num (List.replicate (nrows t) (some 0)))]⟩
  else t

/- ----------------------------------------------------------------- -/
/- check_step_truth                                                   -/
/- ----------------------------------------------------------------- -/

/-- Render of Python `prof.get('p90_ms')` inside the latency detail string
(`None` when the key is absent). -/
def showOptInt : Option Int → String
  | none => "None"
  | some n => toString n

/-- Detail reported when a file read raises inside the check
(`f"check error: {e}"` with a FileNotFoundError). -/
def checkErr (name : String) : String :=
  "check error: [Errno 2] No such file or directory: " ++ name

/-- The `env.split(key)[1].strip()` emptiness test of the env_missing check:
the key text occurs and the segment of the file between its first occurrence
and the next (or the end of file) is not all whitespace. -/
def envKeyCheck (pat : List Char) (e : List Char) : Bool :=
  containsSub pat e && !(stripList (segAfter pat e)).isEmpty

/-- The defect-specific structural check performed when
`step_idx == fail_step`, including the `except` conversion of missing-file
reads into failing verdicts. -/
def checkAtFailStep (snap : Snapshot) : DefectType → Bool × String
  | .missing_dependency =>
    match snap.requirements with
    | none => (false, checkErr "requirements.txt")
    | some req =>
      match snap.modelPy with
      | none => (false, checkErr "model.py")
      | some code =>
        let imports_numpy := strHasSub "numpy" code
        let declared_numpy := strHasSub "numpy" req
        ((declared_numpy || !imports_numpy),
          if declared_numpy then "numpy present" else "numpy missing")
  | .dockerfile_syntax_defect =>
    match snap.dockerfile with
    | none => (false, checkErr "Dockerfile")
    | some content =>
      let invalid := strHasSub "COPY." content
      (!invalid, if !invalid then "Dockerfile COPY valid" else "Invalid COPY directive")
  | .env_missing =>
    match snap.envFile with
    | none => (false, checkErr ".env")
    | some env =>
      let has_user := envKeyCheck "DB_USER=".data env.data
      let has_pass := envKeyCheck "DB_PASS=".data env.data
      let has_host := envKeyCheck "DB_HOST=".data env.data
      let ok := has_user && has_pass && has_host
      (ok, if ok then "env ok" else "env keys missing")
  | .null_values =>
    match snap.dataCsv with
    | none => (false, checkErr "data.csv")
    | some df =>
      let ok := !tableHasNa df
      (ok, if ok then "no NaNs" else "NaNs present")
  | .high_latency =>
    match snap.endpointProfile with
    | none => (false, checkErr "endpoint_profile.json")
    | some prof =>
      (decide (prof.p90_ms.getD 9999 ≤ 1000), "p90=" ++ showOptInt prof.p90_ms ++ "ms")
  | .public_bucket =>
    match snap.iacYaml with
    | none => (false, checkErr "iac.yaml")
    | some policy =>
      let pw := policy.public_write.getD false
      (!pw, if !pw then "public_write=false" else "public_write=true")
  | .memory_leak =>
    match snap.modelPy with
    | none => (false, checkErr "model.py")
    | some code =>
      let leaking := strHasSub "LEAK_DEMO = True" code
      (!leaking, if !leaking then "no leak" else "leak flag true")
  | .schema_drift =>
    match snap.trainingCsv with
    | none => (false, checkErr "training.csv")
    | some df =>
      let ok := (colNames df).contains "target"
      (ok, if ok then "target present" else "target missing")

/-- `check_step_truth(base_dir, scenario_key, step_idx)`: pass before the
failing step, the defect-specific check at the failing step, pass after it
(no branch matches, so the final `return True, "OK"` is reached and no file
is touched). -/
def check_step_truth (snap : Snapshot) (key : ScenarioKey) (step_idx : Nat) : Bool × String :=
  let sc := SCENARIOS key
  if step_idx < sc.failure_step then (true, "OK")
  else if step_idx = sc.failure_step then checkAtFailStep snap sc.stype
  else (true, "OK")

/- ----------------------------------------------------------------- -/
/- apply_mitigation                                                   -/
/- ----------------------------------------------------------------- -/

/-- Message reported when a file read raises inside `apply_mitigation`
(`f"mitigation error: {e}"`). -/
def mitigErr (name : String) : String :=
  "mitigation error: [Errno 2] No such file or directory: " ++ name

/-- The fixed `.env` written by the env_missing mitigation. -/
def fixedEnv : String := "DB_USER=demo\nDB_PASS=demo123\nDB_HOST=localhost\n"

/-- `apply_mitigation(base_dir, scenario_key)`: edits the assets directory
(`none` models a directory that does not exist) and returns
`(ok, message)` together with the directory's new state.  Reads of missing
files raise and are caught (`ok=False` with an error message, directory
unchanged); `open(path, "a")` on a missing directory raises too, while the
`write` helper calls `os.makedirs` first and so succeeds even there. -/
def apply_mitigation (dir : Option Snapshot) (key : ScenarioKey) :
    (Bool × String) × Option Snapshot :=
  let sc := SCENARIOS key
  let okMsg := sc.fmea.mitigation_fix
  match sc.stype with
  | .missing_dependency =>
    match dir with
    | none => ((false, mitigErr "requirements.txt"), none)
    | some snap =>
      ((true, okMsg),
        some { snap with requirements := some ((snap.requirements.getD "") ++ "\nnumpy==1.26.4\n") })
  | .dockerfile_syntax_defect =>
    match dir with
    | none => ((false, mitigErr "Dockerfile"), none)
    | some snap =>
      match snap.dockerfile with
      | none => ((false, mitigErr "Dockerfile"), some snap)
      | some txt =>
        ((true, okMsg), some { snap with dockerfile := some (pyReplace txt "COPY." "COPY . /app\n") })
  | .env_missing =>
    match dir with
    | none => ((true, okMsg), some { emptySnapshot with envFile := some fixedEnv })
    | some snap => ((true, okMsg), some { snap with envFile := some fixedEnv })
  | .null_values =>
    match dir with
    | none => ((false, mitigErr "data.csv"), none)
    | some snap =>
      match snap.dataCsv with
      | none => ((false, mitigErr "data.csv"), some snap)
      | some df => ((true, okMsg), some { snap with dataCsv := some (fillnaTable df) })
  | .high_latency =>
    match dir with
    | none => ((false, mitigErr "endpoint_profile.json"), none)
    | some snap =>
      match snap.endpointProfile with
      | none => ((false, mitigErr "endpoint_profile.json"), some snap)
      | some prof =>
        ((true, okMsg), some { snap with endpointProfile := some { prof with p90_ms := some 400 } })
  | .public_bucket =>
    match dir with
    | none => ((false, mitigErr "iac.yaml"), none)
    | some snap =>
      match snap.iacYaml with
      | none => ((false, mitigErr "iac.yaml"), some snap)
      | some policy =>
        ((true, okMsg), some { snap with iacYaml := some { policy with public_write := some false } })
  | .memory_leak =>
    match dir with
    | none => ((false, mitigErr "model.py"), none)
    | some snap =>
      match snap.modelPy with
      | none => ((false, mitigErr "model.py"), some snap)
      | some txt =>
        ((true, okMsg),
          some { snap with modelPy := some (pyReplace txt "LEAK_DEMO = True" "LEAK_DEMO = False\n# fixed") })
  | .schema_drift =>
    match dir with
    | none => ((false, mitigErr "training.csv"), none)
    | some snap =>
      match snap.trainingCsv with
      | none => ((false, mitigErr "training.csv"), some snap)
      | some df => ((true, okMsg), some { snap with trainingCsv := some (mitigateSchema df) })

/- ----------------------------------------------------------------- -/
/- Pipeline runner                                                    -/
/- ----------------------------------------------------------------- -/

/-- The 20 pipeline steps (the STEPS list). -/
def STEPS : List String :=
  ["Code Commit", "Static Code Analysis", "Dependency Check", "Unit Tests",
   "Integration Tests", "Build Docker Image", "Push to Container Registry",
   "IaC Validation", "Security Scan", "Provision Test Environment",
   "Deploy to Test", "Smoke Tests", "Deploy to Staging", "Load Tests",
   "Deploy to Pre-Prod", "User Acceptance Testing", "Approval Gate",
   "Deploy to Production", "Post-Deploy Monitoring",
   "Feedback Loop & Continuous Training"]

/-- The selectable cloud providers. -/
inductive Cloud
  | AWS
  | GCP
  | Azure
deriving DecidableEq

/-- The CLOUD_MAP dict with `.get(idx, "")` default. -/
def CLOUD_MAP : Cloud → Nat → String
  | .AWS, 1 => "GitHub/CodeCommit"
  | .AWS, 2 => "CodeBuild (static)"
  | .AWS, 3 => "CodeBuild (deps)"
  | .AWS, 4 => "PyTest in CodeBuild"
  | .AWS, 5 => "CodeBuild (integration)"
  | .AWS, 6 => "Docker build (CodeBuild)"
  | .AWS, 7 => "ECR push"
  | .AWS, 8 => "CloudFormation/Terraform validate"
  | .AWS, 9 => "Inspector/CodeGuru Security"
  | .AWS, 10 => "Provision test env (CloudFormation)"
  | .AWS, 11 => "Deploy to test (ECS/EKS)"
  | .AWS, 12 => "Smoke tests (Canaries)"
  | .AWS, 13 => "Deploy staging (ECS/EKS)"
  | .AWS, 14 => "Load test (CloudWatch Synthetics)"
  | .AWS, 15 => "Pre-prod deploy"
  | .AWS, 16 => "UAT (AppConfig feature flags)"
  | .AWS, 17 => "Approval (CodePipeline Manual)"
  | .AWS, 18 => "Prod deploy (Blue/Green)"
  | .AWS, 19 => "Monitoring (CloudWatch/Prometheus)"
  | .AWS, 20 => "CT retrain (SageMaker Pipelines)"
  | .GCP, 1 => "GitHub/Cloud Source Repos"
  | .GCP, 2 => "Cloud Build (static)"
  | .GCP, 3 => "Cloud Build (deps)"
  | .GCP, 4 => "PyTest in Cloud Build"
  | .GCP, 5 => "Cloud Build (integration)"
  | .GCP, 6 => "Docker build (Cloud Build)"
  | .GCP, 7 => "Artifact Registry push"
  | .GCP, 8 => "Terraform/DM validate"
  | .GCP, 9 => "Security Command Center"
  | .GCP, 10 => "Provision test env (Terraform)"
  | .GCP, 11 => "Deploy to test (GKE)"
  | .GCP, 12 => "Smoke tests (Cloud Run Jobs)"
  | .GCP, 13 => "Deploy staging (GKE)"
  | .GCP, 14 => "Load test (Cloud Monitoring SLOs)"
  | .GCP, 15 => "Pre-prod deploy"
  | .GCP, 16 => "UAT (Launch Config)"
  | .GCP, 17 => "Approval (Cloud Deploy)"
  | .GCP, 18 => "Prod deploy (Blue/Green)"
  | .GCP, 19 => "Monitoring (Cloud Monitoring)"
  | .GCP, 20 => "CT retrain (Vertex AI Pipelines)"
  | .Azure, 1 => "GitHub/Azure Repos"
  | .Azure, 2 => "Azure Pipelines (static)"
  | .Azure, 3 => "Pipelines (deps)"
  | .Azure, 4 => "PyTest in Pipelines"
  | .Azure, 5 => "Pipelines (integration)"
  | .Azure, 6 => "Docker build (Pipelines)"
  | .Azure, 7 => "ACR push"
  | .Azure, 8 => "ARM/Bicep/Terraform validate"
  | .Azure, 9 => "Defender for Cloud"
  | .Azure, 10 => "Provision test env (Bicep/Terraform)"
  | .Azure, 11 => "Deploy to test (AKS)"
  | .Azure, 12 => "Smoke tests (Playwright/Func Tests)"
  | .Azure, 13 => "Deploy staging (AKS)"
  | .Azure, 14 => "Load test (Azure Load Testing)"
  | .Azure, 15 => "Pre-prod deploy"
  | .Azure, 16 => "UAT (Feature Management)"
  | .Azure, 17 => "Approval (Environments)"
  | .Azure, 18 => "Prod deploy (Blue/Green)"
  | .Azure, 19 => "Monitoring (Azure Monitor)"
  | .Azure, 20 => "CT retrain (ML Pipelines)"
  | _, _ => ""

/-- Python `f"{idx:02d}"` for the step header. -/
def fmt2 (n : Nat) : String := if n < 10 then "0" ++ toString n else toString n

/-- Step-card header `f"Step {idx:02d} · {step}  —  ...{cloud_service}..."`. -/
def stageHeader (cloud : Cloud) (idx : Nat) (step : String) : String :=
  "Step " ++ fmt2 idx ++ " · " ++ step ++ "  —  " ++ CLOUD_MAP cloud idx

/-- The FMEA panel shown via `st.error` on failure. -/
def fmeaPanel (f : Fmea) : String :=
  "FMEA • Failure Mode: " ++ f.mode ++ "\n\nEffect: " ++ f.effect ++
    "\n\nLikely Cause: " ++ f.cause ++ "\n\nDetection Point: " ++ f.detection

/-- The attempts-dependent mitigation banner shown after the FMEA panel. -/
def mitigationBanner (f : Fmea) (attempts : Nat) : String :=
  if attempts < 2 then
    "Mitigation Suggestion: " ++ f.mitigation_hint ++
      "  → Click **Apply Fix & Retry** (Attempts used: " ++ toString attempts ++ "/2)"
  else
    "Max debug attempts used. Final Suggested Fix: " ++ f.mitigation_fix ++
      "  • Switch demo to reset attempts."

/-- The stage loop of the run handler (lines iterating `STEPS`): returns the
rendered display lines, the session log lines, and the failure record of the
first failing stage (if any).  Stops at the first failure. -/
def runStepsFull (snap : Snapshot) (key : ScenarioKey) (cloud : Cloud) (attempts : Nat) :
    List Nat → List String × List String × Option (Nat × String)
  | [] => ([], [], none)
  | idx :: rest =>
    let step := STEPS.getD (idx - 1) ""
    let header := stageHeader cloud idx step
    let r := check_step_truth snap key idx
    if r.1 then
      let msg := "✅ " ++ step ++ ": OK (" ++ r.2 ++ ")"
      let next := runStepsFull snap key cloud attempts rest
      (header :: msg :: next.1, msg :: next.2.1, next.2.2)
    else
      ([header, "❌ FAILED — " ++ r.2, fmeaPanel (SCENARIOS key).fmea,
        mitigationBanner (SCENARIOS key).fmea attempts],
       ["❌ " ++ step ++ ": " ++ r.2], some (idx, r.2))

/-- The stage indices 1..20 walked by the run handler. -/
def pipelineIdxs : List Nat := (List.range 20).map (· + 1)

/-- One full pipeline run over stages 1..20. -/
def run_pipeline (snap : Snapshot) (key : ScenarioKey) (cloud : Cloud) (attempts : Nat) :
    List String × List String × Option (Nat × String) :=
  runStepsFull snap key cloud attempts pipelineIdxs

/- ----------------------------------------------------------------- -/
/- Session state and the module-level script                          -/
/- ----------------------------------------------------------------- -/

/-- The session state plus the per-scenario assets directories under
`/tmp/ci_ct_cd_sim/` (`fs k = none` models that scenario's directory not
existing). -/
structure World where
  fs : ScenarioKey → Option Snapshot
  cloud : Cloud
  demo_key : Option ScenarioKey
  debug_attempts : Nat
  last_run_logs : List String
  last_failure : Option (Nat × String)
  pipeline_completed : Bool
  running : Bool

/-- `init_state()` with an empty `/tmp` scratch area. -/
def initialWorld : World :=
  { fs := fun _ => none, cloud := .AWS, demo_key := none, debug_attempts := 0
    last_run_logs := [], last_failure := none, pipeline_completed := false
    running := false }

/-- Which button (if any) the user clicked on this Streamlit rerun. -/
inductive Button
  | idle
  | runBtn
  | fixBtn
deriving DecidableEq

/-- Update one scenario's assets directory. -/
def updateFs (f : ScenarioKey → Option Snapshot) (k : ScenarioKey) (v : Option Snapshot) :
    ScenarioKey → Option Snapshot :=
  fun k' => if k' = k then v else f k'

/-- The `if fix_btn:` handler: returns the new world, whether `run_btn` was
forced on (the immediate re-run after a successful fix), and whether
`apply_mitigation` was invoked at all. -/
def fixHandler (w : World) (demo : ScenarioKey) : World × Bool × Bool :=
  if w.last_failure.isNone then (w, false, false)
  else if 2 ≤ w.debug_attempts then (w, false, false)
  else
    let r := apply_mitigation (w.fs demo) demo
    if r.1.1 then
      ({ w with fs := updateFs w.fs demo r.2, debug_attempts := w.debug_attempts + 1 },
        true, true)
    else (w, false, true)

/-- One top-to-bottom execution of the module-level script for one user
interaction: record the control selections, handle the fix button, apply the
asset-regeneration condition
`(not os.path.exists(assets_dir)) or (last_run_logs == []) or run_btn`,
and run the pipeline when requested. -/
def rerun (w : World) (btn : Button) (demo : ScenarioKey) (cloud : Cloud) : World :=
  let w := { w with cloud := cloud, demo_key := some demo }
  let h := if btn = .fixBtn then fixHandler w demo else (w, btn = .runBtn, false)
  let w := h.1
  let run_btn := h.2.1
  let w :=
    if (w.fs demo).isNone || w.last_run_logs.isEmpty || run_btn then
      { w with fs := updateFs w.fs demo (some (generate_assets demo)) }
    else w
  if run_btn then
    let r := run_pipeline ((w.fs demo).getD emptySnapshot) demo w.cloud w.debug_attempts
    { w with
      last_run_logs := r.2.1
      last_failure := r.2.2
      pipeline_completed := r.2.2.isNone
      running := false }
  else w

/- ----------------------------------------------------------------- -/
/- Spec-worded predicates for the env_missing check (claim C7)        -/
/- ----------------------------------------------------------------- -/

/-- Chars strictly before the first occurrence of `pat` in `l` (all of `l`
when `pat` does not occur). -/
def takeBeforeNext (pat l : List Char) : List Char :=
  match splitFirst pat l with
  | none => l
  | some (pre, _) => pre

/-- The amended per-key condition: the key text occurs in the file, and the
segment between its first occurrence and the next occurrence (or the end of
the file) contains a non-whitespace character. -/
def amendedKeyOk (pat e : List Char) : Bool :=
  match splitFirst pat e with
  | none => false
  | some (_, post) => (takeBeforeNext pat post).any fun c => !isSpace c

/-- Split a file into its lines (on the newline character). -/
def splitLinesAux (acc : List Char) : List Char → List (List Char)
  | [] => [acc.reverse]
  | c :: rest =>
    if c.toNat == 10 then acc.reverse :: splitLinesAux [] rest
    else splitLinesAux (c :: acc) rest

/-- Lines of a file. -/
def splitLines (s : String) : List (List Char) := splitLinesAux [] s.data

/-- The claim's per-key reading: some line of the .env file is the key name
followed by `=` and a non-empty value. -/
def claimKeyNonEmpty (pat : String) (env : String) : Bool :=
  (splitLines env).any fun line =>
    startsWithL pat.data line && !(line.drop pat.data.length).isEmpty

/-- The claim's condition for the env_missing scenario: all three required
keys are present and each has a non-empty value on its own line. -/
def claimEnvOk (env : String) : Bool :=
  claimKeyNonEmpty "DB_USER=" env && claimKeyNonEmpty "DB_PASS=" env &&
    claimKeyNonEmpty "DB_HOST=" env

/- ----------------------------------------------------------------- -/
/- Supporting lemmas                                                  -/
/- ----------------------------------------------------------------- -/

/-- The substring test succeeds exactly when `splitFirst` finds the pattern. -/
theorem containsSub_eq_isSome (pat : List Char) :
    ∀ s : List Char, containsSub pat s = (splitFirst pat s).isSome := by
  intro s
  induction s with
  | nil =>
    simp only [containsSub, splitFirst]
    cases h : startsWithL pat [] <;> simp [h]
  | cons c rest ih =>
    simp only [containsSub, splitFirst]
    cases h : startsWithL pat (c :: rest) with
    | true => simp [h]
    | false =>
      simp only [Bool.false_or]
      rw [ih]
      cases hs : splitFirst pat rest with
      | none => simp [hs]
      | some pr => simp [hs]

/-- Stripping yields the empty list exactly when every character is
whitespace. -/
theorem stripList_eq_nil_iff (l : List Char) :
    stripList l = [] ↔ ∀ x ∈ l, isSpace x := by
  unfold stripList
  rw [List.reverse_eq_nil_iff]
  constructor
  · intro h x hx
    have h1 : ∀ y ∈ (l.dropWhile isSpace).reverse, isSpace y :=
      List.dropWhile_eq_nil_iff.mp h
    have h2 : ∀ y ∈ l.dropWhile isSpace, isSpace y := by
      intro y hy
      exact h1 y (List.mem_reverse.mpr hy)
    have h3 : List.dropWhile isSpace l = [] := by
      have := List.dropWhile_eq_nil_iff (p := isSpace) (l := l.dropWhile isSpace)
      rw [List.dropWhile_idempotent] at this
      exact this.mpr h2
    exact List.dropWhile_eq_nil_iff.mp h3 x hx
  · intro h
    have h3 : List.dropWhile isSpace l = [] := List.dropWhile_eq_nil_iff.mpr h
    rw [h3]
    simp

/-- Emptiness of the stripped segment, in terms of the existence of a
non-whitespace character. -/
theorem stripList_isEmpty_eq (l : List Char) :
    (stripList l).isEmpty = !(l.any fun c => !isSpace c) := by
  cases h : l.any fun c => !isSpace c with
  | true =>
    obtain ⟨x, hx, hxs⟩ := List.any_eq_true.mp h
    cases hs : stripList l with
    | nil =>
      have := (stripList_eq_nil_iff l).mp hs x hx
      simp [this] at hxs
    | cons a as => simp [hs]
  | false =>
    have : ∀ x ∈ l, isSpace x := by
      intro x hx
      have := List.any_eq_false.mp h x hx
      simpa using this
    rw [(stripList_eq_nil_iff l).mpr this]
    rfl

/-- The source's `env.split(key)[1].strip()` test agrees with the amended
segment-between-occurrences description. -/
theorem envKeyCheck_eq_amended (pat e : List Char) :
    envKeyCheck pat e = amendedKeyOk pat e := by
  unfold envKeyCheck amendedKeyOk segAfter
  rw [containsSub_eq_isSome]
  cases h : splitFirst pat e with
  | none => rfl
  | some pr =>
    obtain ⟨pre, post⟩ := pr
    simp only [Option.isSome_some, Bool.true_and]
    rw [stripList_isEmpty_eq, Bool.not_not]
    unfold takeBeforeNext
    cases hs : splitFirst pat post with
    | none => rfl
    | some pr2 => rfl

/-- Stage results in the run loop do not depend on the provider or the
attempt count: only the rendered display lines do. -/
theorem runStepsFull_proj (snap : Snapshot) (key : ScenarioKey) :
    ∀ (idxs : List Nat) (c1 c2 : Cloud) (a1 a2 : Nat),
      (runStepsFull snap key c1 a1 idxs).2 = (runStepsFull snap key c2 a2 idxs).2 := by
  intro idxs
  induction idxs with
  | nil => intro c1 c2 a1 a2; rfl
  | cons i rest ih =>
    intro c1 c2 a1 a2
    have hih := ih c1 c2 a1 a2
    simp only [runStepsFull]
    cases h : (check_step_truth snap key i).1 with
    | true =>
      simp only [h, if_true]
      rw [hih]
    | false => simp [h]

/- ----------------------------------------------------------------- -/
/- Concrete traces used by the code-bug claims                        -/
/- ----------------------------------------------------------------- -/

/-- First interaction of the C1 trace: run the pipeline on the Dockerfile
scenario. -/
def traceRun : World := rerun initialWorld Button.runBtn ScenarioKey.demo2 Cloud.AWS

/-- Second interaction of the C1 trace: click Apply Fix & Retry. -/
def traceFix : World := rerun traceRun Button.fixBtn ScenarioKey.demo2 Cloud.AWS

/-- C4 trace: run demo2, fix twice, then select demo3, run it, and try a fix
there. -/
def traceFix2 : World := rerun traceFix Button.fixBtn ScenarioKey.demo2 Cloud.AWS

/-- C4 trace: select the env scenario after exhausting attempts on demo2. -/
def traceSelect3 : World := rerun traceFix2 Button.idle ScenarioKey.demo3 Cloud.AWS

/-- C4 trace: run the pipeline on the newly selected env scenario. -/
def traceRun3 : World := rerun traceSelect3 Button.runBtn ScenarioKey.demo3 Cloud.AWS

/-- C4 trace: attempt a fix on the freshly selected scenario. -/
def traceFix3 : World := rerun traceRun3 Button.fixBtn ScenarioKey.demo3 Cloud.AWS

/-- The .env artifact of the C7 counterexample: all three keys occur, but
DB_USER's value is empty. -/
def counterEnv : String := "DB_USER=\nDB_PASS=demo123\nDB_HOST=localhost\n"

/-- Snapshot holding the C7 counterexample .env file. -/
def counterEnvSnap : Snapshot := { emptySnapshot with envFile := some counterEnv }

/-- Snapshot whose endpoint profile lacks the p90_ms key (claim C10). -/
def profNoKeySnap : Snapshot :=
  { emptySnapshot with endpointProfile := some { p90_ms := none, notes := some "needs tuning" } }

/-- Snapshot holding the repaired .env file (witness input for C7). -/
def fixedEnvSnap : Snapshot := { emptySnapshot with envFile := some fixedEnv }

/- ----------------------------------------------------------------- -/
/- Claim theorems                                                     -/
/- ----------------------------------------------------------------- -/

/-- C1 (code bug): after a run that fails at stage 6 of the Dockerfile
scenario, a successful Apply Fix & Retry does mutate the Dockerfile into a
state that would verify (third conjunct) and consumes an attempt, yet the
forced re-run regenerates the defective baseline (fourth conjunct) and fails
at stage 6 again — the mutated artifacts are not the ones verified on the
re-run, contradicting the claim that a run request reuses the existing
snapshot. -/
theorem fix_then_rerun_regenerates_and_fails_again :
    traceFix.debug_attempts = 1 ∧
    traceFix.last_failure = some (6, "Invalid COPY directive") ∧
    (check_step_truth ((apply_mitigation (traceRun.fs ScenarioKey.demo2) ScenarioKey.demo2).2.getD
      emptySnapshot) ScenarioKey.demo2 6).1 = true ∧
    traceFix.fs ScenarioKey.demo2 = some (generate_assets ScenarioKey.demo2) := by
  decide

/-- C2 (code bug): for the missing_dependency scenario, verifying the freshly
generated baseline at its failing stage 3 returns pass, not fail: the
baseline requirements.txt contains the comment "# numpy intentionally
missing", and the substring test `"numpy" in req` is satisfied by that
comment. -/
theorem missing_dependency_baseline_passes :
    check_step_truth (generate_assets ScenarioKey.demo1) ScenarioKey.demo1 3 =
      (true, "numpy present") := by
  decide

/-- C3: for every scenario, mitigating the generated baseline succeeds and
makes verification at the failing stage pass, and mitigating a second time
still succeeds and still verifies as pass. -/
theorem mitigation_sufficient_and_idempotent :
    ∀ key : ScenarioKey,
      (apply_mitigation (some (generate_assets key)) key).1.1 = true ∧
      (check_step_truth ((apply_mitigation (some (generate_assets key)) key).2.getD emptySnapshot)
        key (SCENARIOS key).failure_step).1 = true ∧
      (apply_mitigation (apply_mitigation (some (generate_assets key)) key).2 key).1.1 = true ∧
      (check_step_truth
        ((apply_mitigation (apply_mitigation (some (generate_assets key)) key).2 key).2.getD
          emptySnapshot) key (SCENARIOS key).failure_step).1 = true := by
  intro key
  cases key <;> decide

/-- C4 (code bug): after exhausting both attempts on the Dockerfile scenario,
selecting a different scenario leaves the attempt count at 2 (not 0), and a
subsequent Apply Fix on the freshly selected, freshly failing scenario is
rejected without touching its snapshot. -/
theorem attempts_survive_scenario_reselection :
    traceSelect3.debug_attempts = 2 ∧
    (traceSelect3.fs ScenarioKey.demo3).isSome = true ∧
    traceRun3.last_failure = some (10, "env keys missing") ∧
    traceFix3.debug_attempts = 2 ∧
    traceFix3.fs ScenarioKey.demo3 = traceRun3.fs ScenarioKey.demo3 := by
  decide

/-- C5: the fix handler invokes the Mitigator exactly when a failure is
recorded and fewer than 2 attempts are used; the attempt count increases
(by one) exactly when the Mitigator was invoked and reported success, and the
assets directories are mutated exactly in that same case. -/
theorem apply_fix_guard_characterization (w : World) (demo : ScenarioKey) :
    (fixHandler w demo).2.2 = (w.last_failure.isSome && decide (w.debug_attempts < 2)) ∧
    (fixHandler w demo).1.debug_attempts =
      (if (fixHandler w demo).2.2 && (apply_mitigation (w.fs demo) demo).1.1 then
        w.debug_attempts + 1
      else w.debug_attempts) ∧
    (fixHandler w demo).1.fs =
      (if (fixHandler w demo).2.2 && (apply_mitigation (w.fs demo) demo).1.1 then
        updateFs w.fs demo (apply_mitigation (w.fs demo) demo).2
      else w.fs) := by
  unfold fixHandler
  by_cases h1 : w.last_failure.isNone
  · simp [h1, Option.isSome, Option.isNone] at *
    cases hf : w.last_failure with
    | none => simp
    | some v => simp [hf] at h1
  · have hs : w.last_failure.isSome = true := by
      cases hf : w.last_failure with
      | none => simp [hf] at h1
      | some v => rfl
    by_cases h2 : 2 ≤ w.debug_attempts
    · have : ¬ w.debug_attempts < 2 := by omega
      simp [h1, h2, hs, this]
    · have hlt : w.debug_attempts < 2 := by omega
      cases h3 : (apply_mitigation (w.fs demo) demo).1.1 with
      | true => simp [h1, h2, hs, hlt, h3]
      | false => simp [h1, h2, hs, hlt, h3]

/-- C6: at any stage index other than the scenario's failing stage — before
or after it — verification returns (true, "OK") regardless of the artifact
contents. -/
theorem verify_ok_off_failing_stage (snap : Snapshot) (key : ScenarioKey) (i : Nat)
    (h : i ≠ (SCENARIOS key).failure_step) :
    check_step_truth snap key i = (true, "OK") := by
  unfold check_step_truth
  rcases Nat.lt_or_ge i (SCENARIOS key).failure_step with hlt | hge
  · simp [hlt]
  · have hnlt : ¬ i < (SCENARIOS key).failure_step := Nat.not_lt.mpr hge
    simp [hnlt, h]

/-- Witness for C6: stage 3 of the env scenario (failing stage 10) passes on
an empty snapshot. -/
theorem verify_ok_off_failing_stage_witness :
    check_step_truth emptySnapshot ScenarioKey.demo3 3 = (true, "OK") :=
  verify_ok_off_failing_stage emptySnapshot ScenarioKey.demo3 3 (by decide)

/-- C7 (counterexample): an .env artifact in which all three keys occur but
DB_USER has an empty value: the claim says verification must fail, yet the
check passes, because `env.split("DB_USER=")[1].strip()` inspects the rest of
the file rather than the key's value. -/
theorem env_check_claim_counterexample :
    (check_step_truth counterEnvSnap ScenarioKey.demo3 10).1 = true ∧
    claimEnvOk counterEnv = false := by
  decide

/-- C7 (amended): verification at the env scenario's failing stage passes iff
for each of DB_USER=, DB_PASS=, DB_HOST= the key text occurs in the .env
artifact and the segment between its first occurrence and the next occurrence
(or the end of the file) contains a non-whitespace character. -/
theorem env_check_amended (snap : Snapshot) (env : String) (h : snap.envFile = some env) :
    (check_step_truth snap ScenarioKey.demo3 10).1 = true ↔
      (amendedKeyOk "DB_USER=".data env.data = true ∧
       amendedKeyOk "DB_PASS=".data env.data = true ∧
       amendedKeyOk "DB_HOST=".data env.data = true) := by
  have : check_step_truth snap ScenarioKey.demo3 10 = checkAtFailStep snap DefectType.env_missing := by
    rfl
  rw [this]
  unfold checkAtFailStep
  rw [h]
  simp only [← envKeyCheck_eq_amended, Bool.and_eq_true]
  constructor
  · rintro ⟨⟨h1, h2⟩, h3⟩
    exact ⟨h1, h2, h3⟩
  · rintro ⟨h1, h2, h3⟩
    exact ⟨⟨h1, h2⟩, h3⟩

/-- Witness for C7's amended theorem: applied to the repaired .env file. -/
theorem env_check_amended_witness :
    (check_step_truth fixedEnvSnap ScenarioKey.demo3 10).1 = true ↔
      (amendedKeyOk "DB_USER=".data fixedEnv.data = true ∧
       amendedKeyOk "DB_PASS=".data fixedEnv.data = true ∧
       amendedKeyOk "DB_HOST=".data fixedEnv.data = true) :=
  env_check_amended fixedEnvSnap fixedEnv rfl

/-- C8: on a snapshot with no files at all, the check at every scenario's
failing stage returns a failing verdict whose detail reports the caught read
error, and the mitigation either reports a caught error (ok=false with a
mitigation-error message) or performs no read and succeeds; nothing
propagates as a crash (all embedded operations are total). -/
theorem io_errors_become_failing_verdicts :
    ∀ key : ScenarioKey,
      (check_step_truth emptySnapshot key (SCENARIOS key).failure_step).1 = false ∧
      startsWithL "check error:".data
        (check_step_truth emptySnapshot key (SCENARIOS key).failure_step).2.data = true ∧
      (((apply_mitigation none key).1.1 = false ∧
        startsWithL "mitigation error:".data (apply_mitigation none key).1.2.data = true) ∨
       (apply_mitigation none key).1.1 = true) := by
  intro key
  cases key <;> decide

/-- C9: the session log lines and the failure record produced by a pipeline
run are the same for any two cloud providers and any two attempt counts; the
verdicts depend only on the snapshot and the scenario (and the verifier is a
pure function of them). -/
theorem verdict_independent_of_provider_and_attempts
    (snap : Snapshot) (key : ScenarioKey) (c1 c2 : Cloud) (a1 a2 : Nat) :
    (run_pipeline snap key c1 a1).2 = (run_pipeline snap key c2 a2).2 :=
  runStepsFull_proj snap key pipelineIdxs c1 c2 a1 a2

/-- C10: for the high_latency scenario, a profile artifact lacking the p90_ms
key fails verification at stage 15: the check substitutes 9999 for the
missing key, which exceeds the 1000 ms threshold, and the detail renders the
absent value. -/
theorem high_latency_missing_key_fails (snap : Snapshot) (prof : EndpointProfile)
    (h1 : snap.endpointProfile = some prof) (h2 : prof.p90_ms = none) :
    check_step_truth snap ScenarioKey.demo5 15 = (false, "p90=Nonems") := by
  have h0 : check_step_truth snap ScenarioKey.demo5 15 = checkAtFailStep snap DefectType.high_latency := by
    rfl
  rw [h0]
  simp only [checkAtFailStep, h1, h2]
  rfl

/-- Witness for C10: a concrete profile with no p90_ms key. -/
theorem high_latency_missing_key_fails_witness :
    check_step_truth profNoKeySnap ScenarioKey.demo5 15 = (false, "p90=Nonems") :=
  high_latency_missing_key_fails profNoKeySnap
    { p90_ms := none, notes := some "needs tuning" } rfl rfl

end CloudSim
